import Mathlib

/-!
Verification of the `Englishwords` vocabulary-drill program (`main.py`)
against its natural-language specification.

The Python source is shallowly embedded below:
  * the two mistake-log files `word_error.txt` / `translate_errors.txt`
    become an explicit `FS` record (`none` = file absent),
  * `input()` becomes consumption from an explicit list of strings
    (an exhausted list models EOF, where Python's `input()` raises),
  * `print()` calls relevant to the claims are collected in an output trace,
  * Python exceptions become values of `PyError`.
Every definition follows the corresponding function of `main.py`.
-/

namespace Englishwords

/-- Python `str.strip()`: drop whitespace from both ends of the string. -/
def pyStrip (s : String) : String :=
  String.mk (((s.data.dropWhile Char.isWhitespace).reverse.dropWhile Char.isWhitespace).reverse)

/-- Python `str.lower()` (ASCII case folding, which covers all answers here). -/
def pyLower (s : String) : String :=
  String.mk (s.data.map Char.toLower)

/-- The normalization `input(...).strip().lower()` applied to quiz answers in `practice`. -/
def pyStripLower (s : String) : String :=
  pyLower (pyStrip s)

/-- Python `str.replace("\n", "")` as used in `error_correction`. -/
def replaceNewlines (s : String) : String :=
  String.mk (s.data.filter (fun c => c ≠ '\n'))

/-- Decimal digits to a natural number, most significant first. -/
def digitsToNat (ds : List Char) : Nat :=
  ds.foldl (fun a c => a * 10 + (c.toNat - 48)) 0

/-- Python `int(...)` on a string: optional surrounding whitespace, optional
sign, then decimal digits; anything else raises `ValueError` (modelled as
`none`). Underscore separators are not modelled; no claim needs them. -/
def pyInt (s : String) : Option Int :=
  let t := (pyStrip s).data
  let sd : Int × List Char :=
    match t with
    | c :: rest =>
      if c = '-' then (-1, rest)
      else if c = '+' then (1, rest) else (1, t)
    | [] => (1, t)
  if sd.2.isEmpty then none
  else if sd.2.all Char.isDigit then some (sd.1 * digitsToNat sd.2) else none

/-- Python exceptions (plus `eofError` for `input()` at end of the supplied
input list, matching `EOFError`). -/
inductive PyError where
  | fileNotFound
  | indexError
  | valueError
  | keyError
  | unboundLocal
  | eofError
  deriving DecidableEq, Repr

/-- The two backing files of the Mistake Ledger.  `none` models an absent
file, `some c` a file whose full text is `c`. -/
structure FS where
  word_error : Option String
  translate_errors : Option String
  deriving DecidableEq, Repr

/-- Python `open(path, mode="a")` followed by `write(line)`: creates the file
when absent, otherwise appends to the existing content. -/
def appendFile (content : Option String) (line : String) : Option String :=
  some (content.getD "" ++ line)

/-- `record_errors(eng_word, ru_word)` from `main.py`: unconditionally appends
`eng_word ++ "\n"` to `word_error.txt` and `ru_word ++ "\n"` to
`translate_errors.txt`.  Note: the source performs no duplicate check. -/
def record_errors (fs : FS) (eng_word ru_word : String) : FS :=
  { word_error := appendFile fs.word_error (eng_word ++ "\n"),
    translate_errors := appendFile fs.translate_errors (ru_word ++ "\n") }

/-- Helper for Python `readlines()`: split a character list into lines, each
keeping its trailing `'\n'`; a final fragment without a terminator is kept,
an empty final fragment is dropped.  `acc` holds the current line reversed. -/
def linesAux : List Char → List Char → List String
  | acc, [] => if acc = [] then [] else [String.mk acc.reverse]
  | acc, c :: rest =>
    if c = '\n' then String.mk (acc.reverse ++ ['\n']) :: linesAux [] rest
    else linesAux (c :: acc) rest

/-- Python `file.readlines()` on the full text of a file. -/
def readlines (s : String) : List String :=
  linesAux [] s.data

/-- `open_errors()` from `main.py`: opens both log files for reading and
returns their `readlines()`.  A missing file raises `FileNotFoundError`
(there is no `try`/`except` in the source). -/
def open_errors (fs : FS) : Except PyError (List String × List String) :=
  match fs.word_error, fs.translate_errors with
  | some we, some te => .ok (readlines we, readlines te)
  | _, _ => .error .fileNotFound

/-- The `while i < len(translate_errors)` loop of `error_correction`, iterating
structurally over the translate-error lines while indexing `user_errors` by
`i`.  Returns (raised exception if any, score, remaining inputs).  As in the
source, `user_errors[i]` is evaluated (and can raise `IndexError`) before any
input is read for that iteration. -/
def correctionLoop (user_errors : List String) :
    List String → List String → Nat → Nat → Option PyError × Nat × List String
  | [], inputs, _, score => (none, score, inputs)
  | _ :: rest_te, inputs, i, score =>
    match user_errors[i]? with
    | none => (some .indexError, score, inputs)
    | some ue =>
      let user_error := replaceNewlines ue
      match inputs with
      | [] => (some .eofError, score, inputs)
      | ans :: rest =>
        if ans = user_error then correctionLoop user_errors rest_te rest (i + 1) (score + 1)
        else correctionLoop user_errors rest_te rest (i + 1) score

/-- `error_correction()` from `main.py`: loads both logs via `open_errors`,
then replays them pairwise by index, comparing the raw user answer exactly
against the stored English word with line terminators removed.  Returns
(raised exception if any, score, file system, remaining inputs); the prompt
and score printing are not tracked (no claim mentions their text). -/
def error_correction (fs : FS) (inputs : List String) :
    Option PyError × Nat × FS × List String :=
  match open_errors fs with
  | .error e => (some e, 0, fs, inputs)
  | .ok (user_errors, translate_errors) =>
    let r := correctionLoop user_errors translate_errors inputs 0 0
    (r.1, r.2.1, fs, r.2.2)

/-- Python dictionary lookup `d[k]` on an insertion-ordered association list
(`none` models the `KeyError` case). -/
def dictGet (d : List (String × String)) (k : String) : Option String :=
  (d.find? (fun p => p.1 == k)).map (·.2)

/-- The hardcoded `english_words` dictionary of `main.py`, as an
insertion-ordered association list (Python dicts preserve insertion order). -/
def english_words : List (String × String) :=
  [("город", "city"), ("вода", "water"), ("метро", "underground"),
   ("яблоко", "apple"), ("семья", "family"), ("сестра", "sister"),
   ("чай", "tea"), ("математика", "maths"), ("цветок", "flower"),
   ("дерево", "tree"), ("река", "river"), ("торт", "cake"),
   ("старый", "old"), ("маленький", "small"), ("кот", "cat"),
   ("мясо", "meat"), ("банк", "bank"), ("расписка", "note"),
   ("видео", "video"), ("книга", "book")]

/-- `russia_words = list(english_words)` from `main.py`: the dictionary keys
in insertion order. -/
def russia_words : List String :=
  english_words.map (·.1)

/-- The mutable state of one `practice` run: the ledger files, the pending
console inputs, the `print` trace, and the local variables `mark`,
`mark_check` and `user_choice` (`none` = not yet assigned, so that reading it
unassigned can raise `UnboundLocalError` as in Python). -/
structure LoopState where
  fs : FS
  inputs : List String
  output : List String
  mark : Nat
  mark_check : Nat
  user_choice : Option Int
  deriving DecidableEq, Repr

/-- The score message `print(f"Вы набрали {mark} баллов")` of `practice`. -/
def scoreMsg (mark : Nat) : String :=
  "Вы набрали " ++ toString mark ++ " баллов"

/-- Result of one `for ru_word in russia_words` pass inside `practice`:
the pass may run off the end of the word list, `break` at a threshold
checkpoint, or raise an exception. -/
inductive ForResult where
  | completed (st : LoopState)
  | broke (st : LoopState)
  | errored (e : PyError) (st : LoopState)
  deriving DecidableEq, Repr

/-- The `for ru_word in russia_words` loop body of `practice`: read one
answer, normalize it with `.strip().lower()`, look the word up in the
dictionary, score a match or record the miss via `record_errors`, and when
`mark == mark_check` read an integer continue/stop choice: `1` raises the
threshold by 5 and continues, anything else breaks out of the pass. -/
def forLoop (ews : List (String × String)) : List String → LoopState → ForResult
  | [], st => .completed st
  | ru_word :: rest_words, st =>
    match st.inputs with
    | [] => .errored .eofError st
    | ans :: rest_inputs =>
      let st1 : LoopState := { st with inputs := rest_inputs }
      let user_input := pyStripLower ans
      match dictGet ews ru_word with
      | none => .errored .keyError st1
      | some eng_word =>
        let st2 : LoopState :=
          if user_input = eng_word then
            { st1 with mark := st1.mark + 1,
                       output := st1.output ++ ["Вы ввели правильно!"] }
          else
            { st1 with fs := record_errors st1.fs eng_word ru_word,
                       output := st1.output ++
                         ["Вы ввели неправильно. Правильный ответ: " ++ eng_word] }
        if st2.mark = st2.mark_check then
          match st2.inputs with
          | [] => .errored .eofError st2
          | choice_str :: rest2 =>
            let st3 : LoopState := { st2 with inputs := rest2 }
            match pyInt choice_str with
            | none => .errored .valueError st3
            | some user_choice =>
              let st4 : LoopState := { st3 with user_choice := some user_choice }
              if user_choice = 1 then
                forLoop ews rest_words
                  { st4 with mark_check := st4.mark_check + 5,
                             output := st4.output ++ [scoreMsg st4.mark] }
              else
                .broke { st4 with output := st4.output ++ [scoreMsg st4.mark] }
        else
          forLoop ews rest_words st2

/-- The `while True` loop of `practice`: reset `mark` to 0, run one pass over
the full word list, then evaluate `if user_choice == 2: break`; reading
`user_choice` before any checkpoint assigned it raises `UnboundLocalError`.
Fuel only guards Lean totality (`none` = fuel ran out); every real run from
`practice`'s initial state consumes input each pass, so
`inputs.length + 1` fuel is never exhausted. -/
def whileLoopFuel (ews : List (String × String)) (words : List String) :
    Nat → LoopState → Option (Option PyError × LoopState)
  | 0, _ => none
  | fuel + 1, st =>
    match forLoop ews words { st with mark := 0 } with
    | .errored e st' => some (some e, st')
    | .completed st' =>
      match st'.user_choice with
      | none => some (some .unboundLocal, st')
      | some c => if c = 2 then some (none, st') else whileLoopFuel ews words fuel st'
    | .broke st' =>
      match st'.user_choice with
      | none => some (some .unboundLocal, st')
      | some c => if c = 2 then some (none, st') else whileLoopFuel ews words fuel st'

/-- `practice(russia_words, english_words)` from `main.py`, run against a
file system and a list of pending console inputs: `mark_check` starts at 10,
`mark` at 0, `user_choice` unassigned. -/
def practice (ews : List (String × String)) (words : List String)
    (fs : FS) (inputs : List String) : Option (Option PyError × LoopState) :=
  whileLoopFuel ews words (inputs.length + 1)
    { fs := fs, inputs := inputs, output := [], mark := 0, mark_check := 10,
      user_choice := none }

/-- Appending a line to each file through a whole list of (target, source)
pairs, i.e. a sequence of `record_errors` calls. -/
def recordAll (fs : FS) (ps : List (String × String)) : FS :=
  ps.foldl (fun fs p => record_errors fs p.1 p.2) fs

/-- C1. The claim says `record` is a no-op when the target is already stored,
so that recording the same pair twice leaves both logs as after the first
call.  In the source, `record_errors` performs no duplicate check at all:
starting from an empty ledger, calling `record_errors("city", "город")` twice
leaves two identical lines in each log (the repository's own test
`test_record_errors_no_duplicates_on_repeat` expects a single line). -/
theorem c1_record_errors_appends_duplicate :
    open_errors (record_errors (record_errors ⟨none, none⟩ "city" "город") "city" "город") =
      .ok (["city\n", "city\n"], ["город\n", "город\n"]) := rfl

/-- C2. The claim says a missing backing file loads as an empty sequence.
In the source, `open_errors` opens both files with mode `"r"` and no
`try`/`except`, so any missing file raises `FileNotFoundError` (the
repository's own test `test_read_lines_missing_file` expects `[]`). -/
theorem c2_open_errors_missing_file_raises :
    open_errors ⟨none, none⟩ = .error .fileNotFound ∧
    open_errors ⟨some "", none⟩ = .error .fileNotFound ∧
    open_errors ⟨none, some ""⟩ = .error .fileNotFound := ⟨rfl, rfl, rfl⟩

/-- C4. The claim says exhausting the word sequence without ever reaching a
threshold checkpoint ends the session normally.  In the source, the
`while True` loop then evaluates `if user_choice == 2` with `user_choice`
never assigned, raising `UnboundLocalError`: one word answered correctly
(score 1, threshold 10) crashes the session. -/
theorem c4_exhaustion_unbound_local :
    practice [("город", "city")] ["город"] ⟨none, none⟩ ["city"] =
      some (some .unboundLocal,
        { fs := ⟨none, none⟩, inputs := [], output := ["Вы ввели правильно!"],
          mark := 1, mark_check := 10, user_choice := none }) := by decide

/-- C5. The claim says the Correction Session processes exactly
`min(len(targets), len(sources))` pairs without failure in both directions of
a length mismatch.  In the source the loop bound is `len(translate_errors)`
alone, and `user_errors[i]` is indexed unguarded: with one target line and
two source lines the session raises `IndexError` after the first pair, while
the opposite direction (two target lines, one source line) does truncate to
one pair as claimed. -/
theorem c5_mismatch_index_error :
    error_correction ⟨some "city\n", some "город\nрека\n"⟩ ["city"] =
      (some .indexError, 1, ⟨some "city\n", some "город\nрека\n"⟩, []) ∧
    error_correction ⟨some "city\nwater\n", some "город\n"⟩ ["city"] =
      (none, 1, ⟨some "city\nwater\n", some "город\n"⟩, []) := by decide

/-- C3 (counterexample).  The claim says any continue/stop choice other than
`1` stops the session so that no remaining word is ever presented.  Concrete
run refuting it: with the program's own vocabulary, 10 correct answers reach
the checkpoint, the choice `3` (≠ 1) is entered, and yet the session goes on
to consume 11 further inputs — it re-presents the whole word list from the
beginning (20 correct-answer confirmations in total) and only terminates at a
second checkpoint where `2` is entered.  Only `user_choice == 2` exits the
outer `while True` loop of `practice`. -/
theorem c3_counterexample :
    (practice english_words russia_words ⟨none, none⟩
        (["city", "water", "underground", "apple", "family",
          "sister", "tea", "maths", "flower", "tree"] ++ ["3"] ++
         ["city", "water", "underground", "apple", "family",
          "sister", "tea", "maths", "flower", "tree"] ++ ["2"])).map
      (fun r => (r.1, r.2.inputs, r.2.user_choice,
        r.2.output.count "Вы ввели правильно!")) =
      some (none, ([] : List String), some (2 : Int), 20) := by decide

/-- C9. Frame property of the Correction Session: `error_correction` never
mutates the Mistake Ledger.  The source performs no write to either backing
file (it only calls `open_errors`), so the file system coming out of the
session is exactly the file system going in, whatever the answers were and
even when the session raises. -/
theorem c9_correction_preserves_ledger (fs : FS) (inputs : List String) :
    (error_correction fs inputs).2.2.1 = fs := by
  cases h : open_errors fs <;> simp [error_correction, h]

/-- C8. When the loaded ledger holds `n = min(len(targets), len(sources)) = 0`
pairs, the Correction Session reads no input at all: the remaining input list
it leaves behind is exactly the input list it was given, so it terminates
immediately without blocking on input (when only the target log is empty the
source raises `IndexError` before any read — still with zero reads). -/
theorem c8_empty_ledger_reads_no_input (fs : FS) (inputs : List String)
    (user_errors translate_errors : List String)
    (hload : open_errors fs = .ok (user_errors, translate_errors))
    (hmin : min user_errors.length translate_errors.length = 0) :
    (error_correction fs inputs).2.2.2 = inputs := by
  rcases Nat.min_eq_zero_iff.mp hmin with h | h
  · have hue : user_errors = [] := List.eq_nil_of_length_eq_zero h
    cases hte : translate_errors with
    | nil => simp [error_correction, hload, hte, correctionLoop]
    | cons t ts => simp [error_correction, hload, hte, hue, correctionLoop]
  · have hte : translate_errors = [] := List.eq_nil_of_length_eq_zero h
    simp [error_correction, hload, hte, correctionLoop]

/-- C8 witness: an existing but empty pair of log files, a pending input that
must not be consumed. -/
theorem c8_empty_ledger_reads_no_input_witness :
    open_errors ⟨some "", some ""⟩ = .ok ([], []) ∧
    (error_correction ⟨some "", some ""⟩ ["city"]).2.2.2 = ["city"] :=
  ⟨rfl, c8_empty_ledger_reads_no_input ⟨some "", some ""⟩ ["city"] [] [] rfl (by decide)⟩

/-- C6. One prompted word in the Quiz Session: the raw input line is
normalized with `.strip().lower()` and compared to the dictionary target.
On a match the score is incremented by exactly one and the ledger is left
untouched; on a mismatch the score is unchanged and
`record_errors(target, source)` is applied to the ledger.  (The checkpoint
inequalities only keep the step away from the separate continue/stop
checkpoint, which is C3's subject.) -/
theorem c6_answer_step (ews : List (String × String)) (w : String) (ws : List String)
    (st : LoopState) (ans : String) (rest : List String) (eng : String)
    (hinp : st.inputs = ans :: rest)
    (hdict : dictGet ews w = some eng) :
    (pyStripLower ans = eng → st.mark + 1 ≠ st.mark_check →
      forLoop ews (w :: ws) st =
        forLoop ews ws { st with inputs := rest, mark := st.mark + 1,
                                 output := st.output ++ ["Вы ввели правильно!"] }) ∧
    (pyStripLower ans ≠ eng → st.mark ≠ st.mark_check →
      forLoop ews (w :: ws) st =
        forLoop ews ws { st with inputs := rest,
                                 fs := record_errors st.fs eng w,
                                 output := st.output ++
                                   ["Вы ввели неправильно. Правильный ответ: " ++ eng] }) := by
  constructor
  · intro hmatch hck
    simp [forLoop, hinp, hdict, hmatch, hck]
  · intro hmiss hck
    simp [forLoop, hinp, hdict, hmiss, hck]

/-- C6 witness: the word `город`, a correct answer `"  CITY  "` (normalized to
`city`, score 0 → 1, ledger untouched) and a wrong answer `"dog"` (score kept,
pair recorded). -/
theorem c6_answer_step_witness :
    (⟨⟨none, none⟩, ["  CITY  "], [], 0, 10, none⟩ : LoopState).inputs = ["  CITY  "] ∧
    dictGet english_words "город" = some "city" ∧
    pyStripLower "  CITY  " = "city" ∧
    forLoop english_words ["город"] ⟨⟨none, none⟩, ["  CITY  "], [], 0, 10, none⟩ =
      forLoop english_words [] ⟨⟨none, none⟩, [], ["Вы ввели правильно!"], 1, 10, none⟩ ∧
    pyStripLower "dog" ≠ "city" ∧
    forLoop english_words ["город"] ⟨⟨none, none⟩, ["dog"], [], 0, 10, none⟩ =
      forLoop english_words []
        ⟨record_errors ⟨none, none⟩ "city" "город", [],
         ["Вы ввели неправильно. Правильный ответ: city"], 0, 10, none⟩ :=
  ⟨rfl, rfl, rfl,
   (c6_answer_step english_words "город" [] ⟨⟨none, none⟩, ["  CITY  "], [], 0, 10, none⟩
      "  CITY  " [] "city" rfl rfl).1 rfl (by decide),
   by decide,
   (c6_answer_step english_words "город" [] ⟨⟨none, none⟩, ["dog"], [], 0, 10, none⟩
      "dog" [] "city" rfl rfl).2 (by decide) (by decide)⟩

/-- String append acts on the underlying character lists. -/
theorem str_data_append (a b : String) : (a ++ b).data = a.data ++ b.data := rfl

/-- The empty string is a right identity for string append. -/
theorem str_append_empty (a : String) : a ++ "" = a := by
  cases a with
  | mk d => show String.mk (d ++ []) = String.mk d; rw [List.append_nil]

/-- String append is associative. -/
theorem str_append_assoc (a b c : String) : a ++ b ++ c = a ++ (b ++ c) := by
  cases a with | mk x => cases b with | mk y => cases c with | mk z =>
    show String.mk (x ++ y ++ z) = String.mk (x ++ (y ++ z))
    rw [List.append_assoc]

/-- The concatenated text of a list of lines, each given its terminator —
the file contents produced by successive single-line appends. -/
def joinLines (ws : List String) : String :=
  ws.foldr (fun w acc => w ++ "\n" ++ acc) ""

/-- `linesAux` peels one newline-terminated line off the front, provided the
line body itself contains no newline. -/
theorem linesAux_line (w : List Char) :
    '\n' ∉ w → ∀ acc rest, linesAux acc (w ++ '\n' :: rest) =
      String.mk (acc.reverse ++ w ++ ['\n']) :: linesAux [] rest := by
  induction w with
  | nil => intro _ acc rest; simp [linesAux]
  | cons c w ih =>
    intro hw acc rest
    rw [List.mem_cons] at hw
    push_neg at hw
    have hc : ¬(c = '\n') := fun h => hw.1 h.symm
    have step : linesAux acc ((c :: w) ++ '\n' :: rest) = linesAux (c :: acc) (w ++ '\n' :: rest) := by
      simp [linesAux, hc]
    rw [step, ih hw.2 (c :: acc) rest]
    simp [List.append_assoc]

/-- `readlines` peels one newline-terminated line off the front of a file. -/
theorem readlines_line (w rest : String) (hw : '\n' ∉ w.data) :
    readlines (w ++ "\n" ++ rest) = (w ++ "\n") :: readlines rest := by
  have h1 : (w ++ "\n" ++ rest).data = w.data ++ '\n' :: rest.data := by
    simp [str_data_append]
  rw [readlines, h1, linesAux_line w.data hw [] rest.data]
  rfl

/-- `readlines` of a concatenation of terminated single-line texts is exactly
the list of those terminated lines. -/
theorem readlines_joinLines (ws : List String) (h : ∀ w ∈ ws, '\n' ∉ w.data) :
    readlines (joinLines ws) = ws.map (· ++ "\n") := by
  induction ws with
  | nil => rfl
  | cons w ws ih =>
    have hw : '\n' ∉ w.data := h w (List.mem_cons_self w ws)
    have hws : ∀ v ∈ ws, '\n' ∉ v.data := fun v hv => h v (List.mem_cons_of_mem w hv)
    show readlines (w ++ "\n" ++ joinLines ws) = (w ++ "\n") :: ws.map (· ++ "\n")
    rw [readlines_line w (joinLines ws) hw, ih hws]

/-- The file contents produced by a sequence of `record_errors` calls on a
pair of existing files: each call appends one terminated line to each file,
in call order. -/
theorem recordAll_content (ps : List (String × String)) :
    ∀ a b, recordAll ⟨some a, some b⟩ ps =
      ⟨some (a ++ joinLines (ps.map (·.1))), some (b ++ joinLines (ps.map (·.2)))⟩ := by
  induction ps with
  | nil => intro a b; simp [recordAll, joinLines, str_append_empty]
  | cons p ps ih =>
    intro a b
    show recordAll (record_errors ⟨some a, some b⟩ p.1 p.2) ps = _
    rw [show record_errors ⟨some a, some b⟩ p.1 p.2 =
          (⟨some (a ++ (p.1 ++ "\n")), some (b ++ (p.2 ++ "\n"))⟩ : FS) from rfl, ih]
    simp [joinLines, str_append_assoc]

/-- C7. Round-trip and append order: starting from a present-but-empty pair
of log files, `N` `record_errors` calls on single-line words followed by
`open_errors` yield a targets list and a sources list, each of length `N`,
whose entries are the recorded words (with their trailing newline) in exactly
the call order.  The source never deduplicates, so the claim's
distinct-target hypothesis is carried but not even needed. -/
theorem c7_roundtrip (ps : List (String × String))
    (hnl : ∀ p ∈ ps, '\n' ∉ p.1.data ∧ '\n' ∉ p.2.data)
    (_hdist : (ps.map Prod.fst).Nodup) :
    open_errors (recordAll ⟨some "", some ""⟩ ps) =
      .ok (ps.map (fun p => p.1 ++ "\n"), ps.map (fun p => p.2 ++ "\n")) := by
  rw [recordAll_content ps "" ""]
  show Except.ok (readlines ("" ++ joinLines (ps.map (·.1))),
                  readlines ("" ++ joinLines (ps.map (·.2)))) = _
  rw [show ("" ++ joinLines (ps.map (·.1))) = joinLines (ps.map (·.1)) from rfl,
      show ("" ++ joinLines (ps.map (·.2))) = joinLines (ps.map (·.2)) from rfl,
      readlines_joinLines _ (by intro w hw
                                rcases List.mem_map.mp hw with ⟨p, hp, rfl⟩
                                exact (hnl p hp).1),
      readlines_joinLines _ (by intro w hw
                                rcases List.mem_map.mp hw with ⟨p, hp, rfl⟩
                                exact (hnl p hp).2)]
  simp [List.map_map, Function.comp]

/-- C7 witness: two distinct pairs recorded in order, then loaded. -/
theorem c7_roundtrip_witness :
    (∀ p ∈ [("city", "город"), ("water", "вода")],
        '\n' ∉ p.1.data ∧ '\n' ∉ p.2.data) ∧
    ([("city", "город"), ("water", "вода")].map Prod.fst).Nodup ∧
    open_errors (recordAll ⟨some "", some ""⟩ [("city", "город"), ("water", "вода")]) =
      .ok (["city\n", "water\n"], ["город\n", "вода\n"]) :=
  ⟨by decide, by decide,
   c7_roundtrip [("city", "город"), ("water", "вода")] (by decide) (by decide)⟩

/-- C3 (amended). At a threshold checkpoint (`mark` reaches `mark_check`
after a correct answer) the integer choice read decides: choice `1` raises
the threshold by 5 and continues with the remaining words of the pass;
choice `2` ends the session, the final score having been emitted; any other
choice also emits the score and abandons the remaining words of the current
pass, but does **not** stop the session — the `while True` loop then restarts
the whole word sequence, because only `user_choice == 2` breaks out of it. -/
theorem c3_checkpoint_behavior :
    (∀ (ews : List (String × String)) (w ans c eng : String)
       (ws rest : List String) (st : LoopState) (n : Int),
      st.inputs = ans :: c :: rest →
      dictGet ews w = some eng →
      pyStripLower ans = eng →
      st.mark + 1 = st.mark_check →
      pyInt c = some n →
      (n = 1 →
        forLoop ews (w :: ws) st =
          forLoop ews ws
            { st with inputs := rest, mark := st.mark + 1,
                      mark_check := st.mark_check + 5, user_choice := some 1,
                      output := st.output ++ ["Вы ввели правильно!"] ++
                        [scoreMsg (st.mark + 1)] }) ∧
      (n ≠ 1 →
        forLoop ews (w :: ws) st =
          .broke { st with inputs := rest, mark := st.mark + 1, user_choice := some n,
                           output := st.output ++ ["Вы ввели правильно!"] ++
                             [scoreMsg (st.mark + 1)] })) ∧
    (∀ (ews : List (String × String)) (words : List String) (fuel : Nat)
       (st st' : LoopState) (n : Int),
      forLoop ews words { st with mark := 0 } = .broke st' →
      st'.user_choice = some n →
      (n = 2 → whileLoopFuel ews words (fuel + 1) st = some (none, st')) ∧
      (n ≠ 2 → whileLoopFuel ews words (fuel + 1) st =
        whileLoopFuel ews words fuel st')) := by
  constructor
  · intro ews w ans c eng ws rest st n hinp hdict hans hck hint
    constructor
    · intro hn1
      subst hn1
      simp [forLoop, hinp, hdict, hans, hck, hint]
    · intro hn1
      simp [forLoop, hinp, hdict, hans, hck, hint, hn1]
  · intro ews words fuel st st' n hfor hchoice
    constructor
    · intro hn2
      subst hn2
      simp [whileLoopFuel, hfor, hchoice]
    · intro hn2
      simp [whileLoopFuel, hfor, hchoice, hn2]

/-- C3 witness: with vocabulary `{город: city}` and `mark_check = 1`, the
checkpoint is reached in one correct answer; choices `1`, `3` and `2`
instantiate the three checkpoint outcomes. -/
theorem c3_checkpoint_behavior_witness :
    ((⟨⟨none, none⟩, ["city", "1"], [], 0, 1, none⟩ : LoopState).inputs =
        ["city", "1"] ∧
      dictGet [("город", "city")] "город" = some "city" ∧
      pyStripLower "city" = "city" ∧
      pyInt "1" = some 1 ∧ pyInt "3" = some 3 ∧ (3 : Int) ≠ 1 ∧
      forLoop [("город", "city")] ["город"] ⟨⟨none, none⟩, ["city", "1"], [], 0, 1, none⟩ =
        forLoop [("город", "city")] []
          ⟨⟨none, none⟩, [], ["Вы ввели правильно!", scoreMsg 1], 1, 6, some 1⟩ ∧
      forLoop [("город", "city")] ["город"] ⟨⟨none, none⟩, ["city", "3"], [], 0, 1, none⟩ =
        .broke ⟨⟨none, none⟩, [], ["Вы ввели правильно!", scoreMsg 1], 1, 1, some 3⟩) ∧
    (forLoop [("город", "city")] ["город"]
        ⟨⟨none, none⟩, ["city", "2"], [], 0, 1, none⟩ =
      .broke ⟨⟨none, none⟩, [], ["Вы ввели правильно!", scoreMsg 1], 1, 1, some 2⟩ ∧
      whileLoopFuel [("город", "city")] ["город"] 1
          ⟨⟨none, none⟩, ["city", "2"], [], 0, 1, none⟩ =
        some (none, ⟨⟨none, none⟩, [], ["Вы ввели правильно!", scoreMsg 1], 1, 1, some 2⟩) ∧
      forLoop [("город", "city")] ["город"]
          ⟨⟨none, none⟩, ["city", "3"], [], 0, 1, none⟩ =
        .broke ⟨⟨none, none⟩, [], ["Вы ввели правильно!", scoreMsg 1], 1, 1, some 3⟩ ∧
      whileLoopFuel [("город", "city")] ["город"] 1
          ⟨⟨none, none⟩, ["city", "3"], [], 0, 1, none⟩ =
        whileLoopFuel [("город", "city")] ["город"] 0
          ⟨⟨none, none⟩, [], ["Вы ввели правильно!", scoreMsg 1], 1, 1, some 3⟩) := by
  refine ⟨⟨rfl, rfl, rfl, by decide, by decide, by decide, ?_, ?_⟩, ?_, ?_, ?_, ?_⟩
  · exact ((c3_checkpoint_behavior.1 [("город", "city")] "город" "city" "1" "city"
      [] [] ⟨⟨none, none⟩, ["city", "1"], [], 0, 1, none⟩ 1 rfl rfl rfl rfl
      (by decide)).1 rfl).trans (by decide)
  · exact ((c3_checkpoint_behavior.1 [("город", "city")] "город" "city" "3" "city"
      [] [] ⟨⟨none, none⟩, ["city", "3"], [], 0, 1, none⟩ 3 rfl rfl rfl rfl
      (by decide)).2 (by decide)).trans (by decide)
  · decide
  · exact (c3_checkpoint_behavior.2 [("город", "city")] ["город"] 0
      ⟨⟨none, none⟩, ["city", "2"], [], 0, 1, none⟩
      ⟨⟨none, none⟩, [], ["Вы ввели правильно!", scoreMsg 1], 1, 1, some 2⟩ 2
      (by decide) rfl).1 rfl
  · decide
  · exact (c3_checkpoint_behavior.2 [("город", "city")] ["город"] 0
      ⟨⟨none, none⟩, ["city", "3"], [], 0, 1, none⟩
      ⟨⟨none, none⟩, [], ["Вы ввели правильно!", scoreMsg 1], 1, 1, some 3⟩ 3
      (by decide) rfl).2 (by decide)

/-- C10. After choosing to continue (`1`) at a checkpoint, exhausting the
word sequence does not end the session: `user_choice` is `1`, so the
`if user_choice == 2: break` test fails and the `while True` loop runs
another full pass — `whileLoopFuel` recurses on the same complete word list,
resetting `mark` to 0 at the start of the pass while keeping the raised
`mark_check`.  Moreover the session can only terminate normally with
`user_choice = 2`, i.e. at a checkpoint where the learner answered `2`. -/
theorem c10_continue_then_restart :
    (∀ (ews : List (String × String)) (words : List String) (fuel : Nat)
       (st st' : LoopState),
      forLoop ews words { st with mark := 0 } = .completed st' →
      st'.user_choice = some 1 →
      whileLoopFuel ews words (fuel + 1) st = whileLoopFuel ews words fuel st') ∧
    (∀ (ews : List (String × String)) (words : List String) (fuel : Nat)
       (st st' : LoopState),
      whileLoopFuel ews words fuel st = some (none, st') →
      st'.user_choice = some 2) := by
  constructor
  · intro ews words fuel st st' hfor hch
    simp [whileLoopFuel, hfor, hch]
  · intro ews words fuel
    induction fuel with
    | zero => intro st st' h; simp [whileLoopFuel] at h
    | succ fuel ih =>
      intro st st' h
      rw [whileLoopFuel] at h
      split at h
      · simp at h
      · split at h
        · simp at h
        · split at h
          · simp only [Option.some.injEq, Prod.mk.injEq] at h
            rcases h with ⟨-, rfl⟩
            simp_all
          · exact ih _ _ h
      · split at h
        · simp at h
        · split at h
          · simp only [Option.some.injEq, Prod.mk.injEq] at h
            rcases h with ⟨-, rfl⟩
            simp_all
          · exact ih _ _ h

/-- C10 witness: one word, threshold 1 so one correct answer reaches a
checkpoint.  Choosing `1` and exhausting the list makes the session run a
fresh full pass (first conjunct); a run that does terminate normally
(choice `2`) ends with `user_choice = 2` (second conjunct). -/
theorem c10_continue_then_restart_witness :
    (forLoop [("город", "city")] ["город"]
        ⟨⟨none, none⟩, ["city", "1"], [], 0, 1, none⟩ =
      .completed ⟨⟨none, none⟩, [], ["Вы ввели правильно!", scoreMsg 1], 1, 6, some 1⟩ ∧
     whileLoopFuel [("город", "city")] ["город"] 2
         ⟨⟨none, none⟩, ["city", "1"], [], 9, 1, none⟩ =
       whileLoopFuel [("город", "city")] ["город"] 1
         ⟨⟨none, none⟩, [], ["Вы ввели правильно!", scoreMsg 1], 1, 6, some 1⟩) ∧
    (whileLoopFuel [("город", "city")] ["город"] 1
        ⟨⟨none, none⟩, ["city", "2"], [], 0, 1, none⟩ =
      some (none, ⟨⟨none, none⟩, [], ["Вы ввели правильно!", scoreMsg 1], 1, 1, some 2⟩) ∧
     (⟨⟨none, none⟩, [], ["Вы ввели правильно!", scoreMsg 1], 1, 1, some 2⟩ :
        LoopState).user_choice = some 2) :=
  ⟨⟨by decide,
    c10_continue_then_restart.1 [("город", "city")] ["город"] 1
      ⟨⟨none, none⟩, ["city", "1"], [], 9, 1, none⟩
      ⟨⟨none, none⟩, [], ["Вы ввели правильно!", scoreMsg 1], 1, 6, some 1⟩
      (by decide) rfl⟩,
   by decide,
   c10_continue_then_restart.2 [("город", "city")] ["город"] 1
     ⟨⟨none, none⟩, ["city", "2"], [], 0, 1, none⟩
     ⟨⟨none, none⟩, [], ["Вы ввели правильно!", scoreMsg 1], 1, 1, some 2⟩
     (by decide)⟩

end Englishwords
